import Mathlib

/-!
Verification of the UGAhacks11 disaster-relief logistics coordinator.

This file shallowly embeds the core data model and operations of the
repository (road network with dynamic edge weights, report projection,
conflict resolution, shelter ranking, clustering, and the query pipeline)
as executable Lean definitions, and proves or refutes the specified
properties about them.

Modelling conventions:
* Python floats are modelled as exact rationals `ℚ`; the IEEE value
  `float("inf")` that the code stores in multipliers and weights is the
  extra point `W.inf` of the extended type `W`.
* `datetime` timestamps are rationals (`Time`); `datetime.utcnow()` is
  modelled as an explicit clock parameter `now` threaded to the functions
  that call it.
* Python `dict`s keyed by edge are association lists; keys are unique in
  every state that the code builds, and updates rewrite every entry with
  the key, which agrees with dict semantics on unique keys.
* `math.sqrt` is modelled by `ratSqrt`, the exact rational square root;
  every theorem below evaluates it only on perfect squares, where the
  model agrees with the real square root.
* External collaborators (the ORS routing service, the LLM) and
  transcendental distances (haversine, planar Euclidean distance) are
  passed as explicit function parameters, as the specification treats
  them as opaque collaborators.
-/

namespace UGAhacks

/-- A graph node, keyed by `(lon, lat)` exactly as in the source. -/
abbrev Node := ℚ × ℚ

/-- Scenario timestamps. -/
abbrev Time := ℚ

/-- Model: `Location` from `backend/agents/base_agent.py`. -/
structure Location where
  lat : ℚ
  lon : ℚ
  address : Option String := none
deriving DecidableEq, Repr

/-- Model: `EventType` from `backend/agents/base_agent.py`. -/
inductive EventType where
  | road_closure
  | road_damage
  | road_clear
  | flooding
  | bridge_collapse
  | shelter_opening
  | shelter_closing
  | shelter_need
  | power_outage
  | infrastructure_damage
  | rescue_needed
  | supplies_needed
deriving DecidableEq, Repr

/-- Model: `AgentReport` from `backend/agents/base_agent.py` (the fields the
core pipeline reads; the opaque `raw_data`/`metadata` payloads and the
source enum are irrelevant to every claim and omitted). -/
structure AgentReport where
  id : String
  timestamp : Time
  event_type : EventType
  location : Location
  description : String := ""
  confidence : ℚ
  agent_name : String := ""
deriving DecidableEq, Repr

/-- Extended nonnegative numbers: a Python float that is either finite or
`float("inf")`.  Edge weights and multipliers live here. -/
inductive W where
  | fin : ℚ → W
  | inf : W
deriving DecidableEq, Repr

/-- Model: `base_weight * multiplier` with `∞` absorbing, exactly the float
multiplication the code performs (`inf * b = inf`). -/
def wmul (base : ℚ) : W → W
  | W.fin q => W.fin (base * q)
  | W.inf => W.inf

/-- The Python comparison `multiplier > 1.0`. -/
def W.gtOne : W → Bool
  | W.fin q => decide (1 < q)
  | W.inf => true

/-- The claim predicate `1 < multiplier < ∞`. -/
def W.strictlyDamaging : W → Prop
  | W.fin q => 1 < q
  | W.inf => False

instance : DecidablePred W.strictlyDamaging := fun w => by
  cases w <;> simp [W.strictlyDamaging] <;> infer_instance

/-- Edge status strings `"open" | "damaged" | "closed"`. -/
inductive RoadStatus where
  | normal   -- the source string "open" (`open` is a Lean keyword)
  | damaged
  | closed
deriving DecidableEq, Repr

/-- Model: `EdgeStatus` dataclass from `backend/routing/road_network.py`. -/
structure EdgeStatus where
  weight_multiplier : W := W.fin 1
  status : RoadStatus := RoadStatus.normal
  confidence : ℚ := 1
  last_update : Option Time := none
  reports : List String := []
deriving DecidableEq, Repr

/-- The per-edge attribute dict set up by `load_from_geojson`. -/
structure EdgeData where
  name : Option String := none
  highway : Option String := none
  length : ℚ
  geometry : List Node := []
  base_weight : ℚ
  weight : W
deriving DecidableEq, Repr

/-- Model: `RoadNetworkManager` state: the `networkx` digraph (node list plus
edge-keyed attribute dict) and the `edge_status` dict. -/
structure RoadNetworkManager where
  nodes : List Node := []
  edges : List ((Node × Node) × EdgeData) := []
  edge_status : List ((Node × Node) × EdgeStatus) := []
deriving DecidableEq, Repr

namespace RoadNetworkManager

/-- Dict lookup (first entry with the key). -/
def lookupEdge (m : RoadNetworkManager) (k : Node × Node) : Option EdgeData :=
  (m.edges.find? (fun p => p.1 = k)).map (·.2)

/-- Dict lookup in `edge_status`. -/
def lookupStatus (m : RoadNetworkManager) (k : Node × Node) : Option EdgeStatus :=
  (m.edge_status.find? (fun p => p.1 = k)).map (·.2)

/-- Model: `self.graph.has_edge(start, end)`. -/
def has_edge (m : RoadNetworkManager) (k : Node × Node) : Bool :=
  m.edges.any (fun p => p.1 = k)

/-- Rewrite the attribute record of the entries with key `k` (dict keys
are unique in every state the code builds). -/
def mapEdge (m : RoadNetworkManager) (k : Node × Node) (f : EdgeData → EdgeData) :
    RoadNetworkManager :=
  { m with edges := m.edges.map (fun p => if p.1 = k then (p.1, f p.2) else p) }

/-- Model: `self.edge_status[k] = v`: replace if present, else append. -/
def setStatus (m : RoadNetworkManager) (k : Node × Node) (v : EdgeStatus) :
    RoadNetworkManager :=
  if m.edge_status.any (fun p => p.1 = k) then
    { m with edge_status := m.edge_status.map (fun p => if p.1 = k then (k, v) else p) }
  else
    { m with edge_status := m.edge_status ++ [(k, v)] }

/-- The three-branch `if multiplier == inf / elif multiplier > 1.0 / else`
computation of `(new_weight, status)` in `update_edge_weight`
(road_network.py:176-184). -/
def weight_and_status (base_weight : ℚ) (multiplier : W) : W × RoadStatus :=
  if multiplier = W.inf then (W.inf, RoadStatus.closed)
  else if multiplier.gtOne then (wmul base_weight multiplier, RoadStatus.damaged)
  else (W.fin base_weight, RoadStatus.normal)

/-- The field updates on the `EdgeStatus` record in `update_edge_weight`
(road_network.py:190-196); `if report_id:` is Python truthiness, so an
empty id string is not appended. -/
def updated_status (es : EdgeStatus) (multiplier : W) (status : RoadStatus)
    (confidence : ℚ) (report_id : Option String) (now : Time) : EdgeStatus :=
  { es with
    weight_multiplier := multiplier
    status := status
    confidence := confidence
    last_update := some now
    reports :=
      match report_id with
      | some rid => if rid = "" then es.reports else es.reports ++ [rid]
      | none => es.reports }

/-- Model: `RoadNetworkManager.update_edge_weight` (road_network.py:148-199).
`datetime.utcnow()` is the explicit parameter `now`.  Returns the updated
manager and the `True`/`False` result. -/
def update_edge_weight (m : RoadNetworkManager) (start stop : Node)
    (multiplier : W) (confidence : ℚ) (report_id : Option String)
    (now : Time) : RoadNetworkManager × Bool :=
  match m.lookupEdge (start, stop) with
  | none => (m, false)
  | some edge_data =>
    ((m.mapEdge (start, stop)
        (fun d => { d with
          weight := (weight_and_status edge_data.base_weight multiplier).1 })).setStatus
      (start, stop)
      (updated_status ((m.lookupStatus (start, stop)).getD {}) multiplier
        (weight_and_status edge_data.base_weight multiplier).2 confidence report_id now),
     true)

end RoadNetworkManager

section AssocLemmas

variable {κ β : Type} [DecidableEq κ]

theorem find?_replaceAll_self (l : List (κ × β)) (k : κ) (v : β)
    (h : l.any (fun p => decide (p.1 = k)) = true) :
    (l.map (fun p => if p.1 = k then (k, v) else p)).find?
        (fun p => decide (p.1 = k)) = some (k, v) := by
  induction l with
  | nil => simp at h
  | cons a l ih =>
    by_cases ha : a.1 = k
    · simp [List.find?, ha]
    · simp only [List.any_cons, ha, decide_False, Bool.false_or] at h
      simp [List.find?, ha, ih h]

theorem find?_replaceAll_ne (l : List (κ × β)) (k k' : κ) (v : β) (hne : k' ≠ k) :
    (l.map (fun p => if p.1 = k then (k, v) else p)).find?
        (fun p => decide (p.1 = k')) = l.find? (fun p => decide (p.1 = k')) := by
  have hkk' : ¬ (k = k') := fun h => hne h.symm
  induction l with
  | nil => simp
  | cons a l ih =>
    by_cases ha : a.1 = k
    · simp [List.find?, ha, hkk', ih]
    · by_cases ha' : a.1 = k'
      · simp [List.find?, ha, ha', hne]
      · simp [List.find?, ha, ha', ih]

theorem find?_mapVal_self (l : List (κ × β)) (k : κ) (f : β → β) :
    (l.map (fun p => if p.1 = k then (p.1, f p.2) else p)).find?
        (fun p => decide (p.1 = k))
      = (l.find? (fun p => decide (p.1 = k))).map (fun p => (p.1, f p.2)) := by
  induction l with
  | nil => simp
  | cons a l ih =>
    by_cases ha : a.1 = k
    · simp [List.find?, ha]
    · simp [List.find?, ha, ih]

theorem find?_mapVal_ne (l : List (κ × β)) (k k' : κ) (f : β → β) (hne : k' ≠ k) :
    (l.map (fun p => if p.1 = k then (p.1, f p.2) else p)).find?
        (fun p => decide (p.1 = k')) = l.find? (fun p => decide (p.1 = k')) := by
  have hkk' : ¬ (k = k') := fun h => hne h.symm
  induction l with
  | nil => simp
  | cons a l ih =>
    by_cases ha : a.1 = k
    · simp [List.find?, ha, hkk', ih]
    · by_cases ha' : a.1 = k'
      · simp [List.find?, ha, ha', hne]
      · simp [List.find?, ha, ha', ih]

theorem find?_append_self_of_not_any (l : List (κ × β)) (k : κ) (v : β)
    (h : ∀ p ∈ l, ¬ p.1 = k) :
    (l ++ [(k, v)]).find? (fun p => decide (p.1 = k)) = some (k, v) := by
  induction l with
  | nil => simp [List.find?]
  | cons a l ih =>
    have ha : ¬ a.1 = k := h a (List.mem_cons_self a l)
    simp [List.find?, ha, ih (fun p hp => h p (List.mem_cons_of_mem a hp))]

theorem find?_append_ne (l : List (κ × β)) (k k' : κ) (v : β) (hne : k' ≠ k) :
    (l ++ [(k, v)]).find? (fun p => decide (p.1 = k'))
      = l.find? (fun p => decide (p.1 = k')) := by
  have hkk' : ¬ (k = k') := fun h => hne h.symm
  induction l with
  | nil => simp [List.find?, hkk']
  | cons a l ih =>
    by_cases ha' : a.1 = k'
    · simp [List.find?, ha']
    · simp [List.find?, ha', ih]

end AssocLemmas

namespace RoadNetworkManager

theorem lookupEdge_mapEdge_self (m : RoadNetworkManager) (k : Node × Node)
    (f : EdgeData → EdgeData) :
    (m.mapEdge k f).lookupEdge k = (m.lookupEdge k).map f := by
  simp only [lookupEdge, mapEdge, find?_mapVal_self]
  cases m.edges.find? (fun p => decide (p.1 = k)) <;> rfl

theorem lookupEdge_mapEdge_ne (m : RoadNetworkManager) (k k' : Node × Node)
    (f : EdgeData → EdgeData) (hne : k' ≠ k) :
    (m.mapEdge k f).lookupEdge k' = m.lookupEdge k' := by
  simp only [lookupEdge, mapEdge, find?_mapVal_ne _ _ _ _ hne]

theorem lookupStatus_mapEdge (m : RoadNetworkManager) (k k' : Node × Node)
    (f : EdgeData → EdgeData) :
    (m.mapEdge k f).lookupStatus k' = m.lookupStatus k' := rfl

theorem lookupEdge_setStatus (m : RoadNetworkManager) (k k' : Node × Node)
    (v : EdgeStatus) : (m.setStatus k v).lookupEdge k' = m.lookupEdge k' := by
  simp only [setStatus]
  split <;> rfl

theorem lookupStatus_setStatus_self (m : RoadNetworkManager) (k : Node × Node)
    (v : EdgeStatus) : (m.setStatus k v).lookupStatus k = some v := by
  unfold setStatus lookupStatus
  cases hany : m.edge_status.any (fun p => decide (p.1 = k)) with
  | true =>
    simp only [hany, if_true, find?_replaceAll_self _ _ _ hany, Option.map_some']
  | false =>
    have hall : ∀ p ∈ m.edge_status, ¬ p.1 = k := by
      intro p hp
      have := List.any_eq_false.mp hany p hp
      simpa using this
    simp only [hany, Bool.false_eq_true, if_false,
      find?_append_self_of_not_any _ _ _ hall, Option.map_some']

theorem lookupStatus_setStatus_ne (m : RoadNetworkManager) (k k' : Node × Node)
    (v : EdgeStatus) (hne : k' ≠ k) :
    (m.setStatus k v).lookupStatus k' = m.lookupStatus k' := by
  unfold setStatus lookupStatus
  cases hany : m.edge_status.any (fun p => decide (p.1 = k)) with
  | true => simp only [hany, if_true, find?_replaceAll_ne _ _ _ _ hne]
  | false =>
    simp only [hany, Bool.false_eq_true, if_false, find?_append_ne _ _ _ _ hne]

end RoadNetworkManager

/-- The claim predicate `multiplier ≥ 1` on extended multipliers. -/
def W.oneLe : W → Prop
  | W.fin q => 1 ≤ q
  | W.inf => True

instance : DecidablePred W.oneLe := fun w => by
  cases w <;> simp [W.oneLe] <;> infer_instance

section C1

open RoadNetworkManager

/-- Concrete one-edge manager used for concrete evaluations of the
weight-update operation. -/
def mC1 : RoadNetworkManager :=
  { nodes := [(0, 0), (1, 0)]
    edges := [(((0, 0), (1, 0)),
      { length := 100, base_weight := 100, weight := W.fin 100 })]
    edge_status := [(((0, 0), (1, 0)), {})] }

/-- After `update_edge_weight` on an existing edge, the edge record and
its status record are the explicit branch-computed values. -/
theorem update_edge_weight_lookups (m : RoadNetworkManager)
    (s t : Node) (mult : W) (conf : ℚ) (rid : Option String) (now : Time)
    (ed : EdgeData) (h : m.lookupEdge (s, t) = some ed) :
    (m.update_edge_weight s t mult conf rid now).1.lookupEdge (s, t)
        = some { ed with weight := (weight_and_status ed.base_weight mult).1 }
    ∧ (m.update_edge_weight s t mult conf rid now).1.lookupStatus (s, t)
        = some (updated_status ((m.lookupStatus (s, t)).getD {}) mult
            (weight_and_status ed.base_weight mult).2 conf rid now) := by
  unfold update_edge_weight
  rw [h]
  constructor
  · rw [lookupEdge_setStatus, lookupEdge_mapEdge_self, h]
    rfl
  · rw [lookupStatus_setStatus_self]

/-- Branch analysis of the `(new_weight, status)` computation. -/
theorem weight_and_status_spec (b : ℚ) (mult : W) :
    (mult.oneLe → (weight_and_status b mult).1 = wmul b mult)
    ∧ (¬ mult.oneLe → (weight_and_status b mult).1 = W.fin b)
    ∧ ((weight_and_status b mult).2 = RoadStatus.closed ↔ mult = W.inf)
    ∧ ((weight_and_status b mult).2 = RoadStatus.damaged ↔ mult.strictlyDamaging)
    ∧ ((weight_and_status b mult).2 = RoadStatus.normal ↔
        ¬ (mult = W.inf ∨ mult.strictlyDamaging)) := by
  cases mult with
  | inf =>
    have hw : weight_and_status b W.inf = (W.inf, RoadStatus.closed) := rfl
    rw [hw]
    exact ⟨fun _ => rfl, fun hlt => absurd trivial hlt, by simp,
      by simp [W.strictlyDamaging], by simp [W.strictlyDamaging]⟩
  | fin q =>
    by_cases h1 : (1 : ℚ) < q
    · have hw : weight_and_status b (W.fin q) = (wmul b (W.fin q), RoadStatus.damaged) := by
        simp [weight_and_status, W.gtOne, h1]
      rw [hw]
      exact ⟨fun _ => rfl, fun hlt => absurd h1.le hlt, by simp,
        by simp [W.strictlyDamaging, h1], by simp [W.strictlyDamaging, h1]⟩
    · have hw : weight_and_status b (W.fin q) = (W.fin b, RoadStatus.normal) := by
        simp [weight_and_status, W.gtOne, h1]
      rw [hw]
      refine ⟨fun hle => ?_, fun _ => rfl, by simp,
        by simp [W.strictlyDamaging, h1], by simp [W.strictlyDamaging, h1]⟩
      have hq1 : q = 1 := le_antisymm (not_lt.mp h1) hle
      simp [wmul, hq1]

/-- C1 counterexample: calling `update_edge_weight` with multiplier `1/2`
on an edge of `base_weight = 100` leaves the weight at `100`, whereas the
claimed invariant `weight = base_weight × multiplier` demands `50`.  The
claim fails for calls with multiplier below 1: the `else` branch restores
the base weight instead of scaling it. -/
theorem update_edge_weight_claim_false :
    (((mC1.update_edge_weight (0, 0) (1, 0) (W.fin (1/2)) 1 none 0).1.lookupEdge
        ((0, 0), (1, 0))).map EdgeData.weight = some (W.fin 100))
    ∧ wmul 100 (W.fin (1/2)) = W.fin 50
    ∧ (W.fin (100 : ℚ) ≠ W.fin (50 : ℚ)) := by
  refine ⟨?_, by norm_num [wmul], by simp⟩
  rw [(update_edge_weight_lookups mC1 (0, 0) (1, 0) (W.fin (1/2)) 1 none 0
    { length := 100, base_weight := 100, weight := W.fin 100 } rfl).1]
  norm_num [weight_and_status, W.gtOne]
  rfl

/-- C1 (amended): after any call to `update_edge_weight` on an existing
edge, `base_weight` is unchanged; `weight = base_weight × multiplier`
holds whenever `multiplier ≥ 1` (with `∞ × base_weight = ∞`), while for
`multiplier < 1` the weight is restored to `base_weight`; and the status
is `closed` iff `multiplier = ∞`, `damaged` iff `1 < multiplier < ∞`, and
`open` otherwise. -/
theorem update_edge_weight_invariant (m : RoadNetworkManager)
    (s t : Node) (mult : W) (conf : ℚ) (rid : Option String) (now : Time)
    (ed : EdgeData) (h : m.lookupEdge (s, t) = some ed) :
    ∃ ed' st',
      (m.update_edge_weight s t mult conf rid now).1.lookupEdge (s, t) = some ed'
      ∧ (m.update_edge_weight s t mult conf rid now).1.lookupStatus (s, t) = some st'
      ∧ ed'.base_weight = ed.base_weight
      ∧ (mult.oneLe → ed'.weight = wmul ed.base_weight mult)
      ∧ (¬ mult.oneLe → ed'.weight = W.fin ed.base_weight)
      ∧ (st'.status = RoadStatus.closed ↔ mult = W.inf)
      ∧ (st'.status = RoadStatus.damaged ↔ mult.strictlyDamaging)
      ∧ (st'.status = RoadStatus.normal ↔ ¬ (mult = W.inf ∨ mult.strictlyDamaging)) := by
  obtain ⟨hE, hS⟩ := update_edge_weight_lookups m s t mult conf rid now ed h
  obtain ⟨w1, w2, s1, s2, s3⟩ := weight_and_status_spec ed.base_weight mult
  exact ⟨_, _, hE, hS, rfl, w1, w2, s1, s2, s3⟩

/-- Witness for `update_edge_weight_invariant` at a concrete edge and
multiplier. -/
theorem update_edge_weight_invariant_witness :
    ∃ ed' st',
      (mC1.update_edge_weight (0, 0) (1, 0) (W.fin 3) (9/10) none 0).1.lookupEdge
          ((0, 0), (1, 0)) = some ed'
      ∧ (mC1.update_edge_weight (0, 0) (1, 0) (W.fin 3) (9/10) none 0).1.lookupStatus
          ((0, 0), (1, 0)) = some st'
      ∧ ed'.base_weight = (100 : ℚ)
      ∧ (W.oneLe (W.fin 3) → ed'.weight = wmul 100 (W.fin 3))
      ∧ (¬ W.oneLe (W.fin 3) → ed'.weight = W.fin 100)
      ∧ (st'.status = RoadStatus.closed ↔ W.fin 3 = W.inf)
      ∧ (st'.status = RoadStatus.damaged ↔ W.strictlyDamaging (W.fin 3))
      ∧ (st'.status = RoadStatus.normal ↔
          ¬ (W.fin 3 = W.inf ∨ W.strictlyDamaging (W.fin 3))) :=
  update_edge_weight_invariant mC1 (0, 0) (1, 0) (W.fin 3) (9/10) none 0
    { length := 100, base_weight := 100, weight := W.fin 100 } rfl

end C1

namespace RoadNetworkManager

end RoadNetworkManager

/-- Executable absolute value on `ℚ` (Python's `abs`); definitionally
reducible, unlike the lattice-derived `|·|`. -/
def qabs (q : ℚ) : ℚ := if q < 0 then -q else q

theorem qabs_eq_abs (q : ℚ) : qabs q = |q| := by
  unfold qabs
  split
  · exact (abs_of_neg (by assumption)).symm
  · exact (abs_of_nonneg (not_lt.mp (by assumption))).symm

namespace RoadNetworkManager

/-- The midpoint proximity test of `update_edge_weight_by_location`
(road_network.py:222-230): the edge midpoint must be within `radius_deg`
of the location in both longitude and latitude (nodes are `(lon, lat)`). -/
def near_edge (k : Node × Node) (location : Location) (radius_deg : ℚ) : Bool :=
  qabs (((k.1.1 + k.2.1) / 2) - location.lon) ≤ radius_deg
    ∧ qabs (((k.1.2 + k.2.2) / 2) - location.lat) ≤ radius_deg

/-- Model: `RoadNetworkManager.update_edge_weight_by_location`
(road_network.py:201-234).  Iterates the graph's edge keys (updates never
change the key set) and updates each edge near the location; note that no
`report_id` is passed through to `update_edge_weight`. -/
def update_edge_weight_by_location (m : RoadNetworkManager) (location : Location)
    (multiplier : W) (confidence : ℚ) (radius_deg : ℚ) (now : Time) :
    RoadNetworkManager × Nat :=
  (m.edges.map (·.1)).foldl
    (fun acc k =>
      if near_edge k location radius_deg then
        let r := acc.1.update_edge_weight k.1 k.2 multiplier confidence none now
        (r.1, if r.2 then acc.2 + 1 else acc.2)
      else acc)
    (m, 0)

/-- Model: `EVENT_WEIGHT_IMPACT` (road_network.py:36-42); `none` models absence
from the dict. -/
def EVENT_WEIGHT_IMPACT : EventType → Option W
  | EventType.road_closure => some W.inf
  | EventType.bridge_collapse => some W.inf
  | EventType.road_damage => some (W.fin 3)
  | EventType.flooding => some (W.fin 5)
  | EventType.road_clear => some (W.fin 1)
  | _ => none

/-- Model: `RoadNetworkManager.apply_agent_report` (road_network.py:236-254).
The report's id is not forwarded, and the default radius `0.001` is used. -/
def apply_agent_report (m : RoadNetworkManager) (report : AgentReport)
    (now : Time) : RoadNetworkManager × Nat :=
  match EVENT_WEIGHT_IMPACT report.event_type with
  | none => (m, 0)
  | some multiplier =>
    m.update_edge_weight_by_location report.location multiplier
      report.confidence (1/1000) now

/-- Model: `RoadNetworkManager.apply_agent_reports` (road_network.py:256-261). -/
def apply_agent_reports (m : RoadNetworkManager) (reports : List AgentReport)
    (now : Time) : RoadNetworkManager × Nat :=
  reports.foldl
    (fun acc r =>
      let p := acc.1.apply_agent_report r now
      (p.1, acc.2 + p.2))
    (m, 0)

/-- Model: `RoadNetworkManager.reset_all_weights` (road_network.py:369-374):
every edge's weight returns to `base_weight`; the status entry of every
graph edge is replaced by a fresh `EdgeStatus`. -/
def reset_all_weights (m : RoadNetworkManager) : RoadNetworkManager :=
  { m with
    edges := m.edges.map (fun p => (p.1, { p.2 with weight := W.fin p.2.base_weight }))
    edge_status := m.edge_status.map (fun p =>
      if m.edges.any (fun q => q.1 = p.1) then (p.1, {}) else p) }

/-- Model: `RoadNetworkManager.get_blocked_edges` (road_network.py:323-337),
modelled as the list of closed status entries (the per-entry dict the code
builds carries no information any claim consumes). -/
def get_blocked_edges (m : RoadNetworkManager) : List ((Node × Node) × EdgeStatus) :=
  m.edge_status.filter (fun p => p.2.status = RoadStatus.closed)

/-- Model: `RoadNetworkManager.get_damaged_edges` (road_network.py:339-353). -/
def get_damaged_edges (m : RoadNetworkManager) : List ((Node × Node) × EdgeStatus) :=
  m.edge_status.filter (fun p => p.2.status = RoadStatus.damaged)

/-- Model: `update_edge_weight` at one key leaves every other key's edge record
and status entry untouched. -/
theorem update_edge_weight_frame (m : RoadNetworkManager) (s t : Node)
    (mult : W) (conf : ℚ) (rid : Option String) (now : Time)
    (k : Node × Node) (hk : k ≠ (s, t)) :
    (m.update_edge_weight s t mult conf rid now).1.lookupEdge k = m.lookupEdge k
    ∧ (m.update_edge_weight s t mult conf rid now).1.lookupStatus k
        = m.lookupStatus k := by
  unfold update_edge_weight
  cases h : m.lookupEdge (s, t) with
  | none => exact ⟨rfl, rfl⟩
  | some ed =>
    constructor
    · rw [lookupEdge_setStatus, lookupEdge_mapEdge_ne _ _ _ _ hk]
    · rw [lookupStatus_setStatus_ne _ _ _ _ hk, lookupStatus_mapEdge]

/-- The by-location fold leaves every key it never updates untouched. -/
theorem update_by_location_foldl_frame (location : Location) (mult : W)
    (conf : ℚ) (r now : Time) (ks : List (Node × Node))
    (acc : RoadNetworkManager × Nat) (k : Node × Node)
    (hk : ∀ k' ∈ ks, k' = k → near_edge k' location r = false) :
    ((ks.foldl
        (fun acc k' =>
          if near_edge k' location r then
            let p := acc.1.update_edge_weight k'.1 k'.2 mult conf none now
            (p.1, if p.2 then acc.2 + 1 else acc.2)
          else acc)
        acc).1.lookupEdge k = acc.1.lookupEdge k)
    ∧ ((ks.foldl
        (fun acc k' =>
          if near_edge k' location r then
            let p := acc.1.update_edge_weight k'.1 k'.2 mult conf none now
            (p.1, if p.2 then acc.2 + 1 else acc.2)
          else acc)
        acc).1.lookupStatus k = acc.1.lookupStatus k) := by
  induction ks generalizing acc with
  | nil => exact ⟨rfl, rfl⟩
  | cons k' ks ih =>
    have hk' := hk k' (List.mem_cons_self k' ks)
    have hrest : ∀ k'' ∈ ks, k'' = k → near_edge k'' location r = false :=
      fun k'' hmem => hk k'' (List.mem_cons_of_mem k' hmem)
    simp only [List.foldl_cons]
    by_cases hnear : near_edge k' location r = true
    · have hne : k ≠ (k'.1, k'.2) := by
        intro hkeq
        have : k' = k := by
          cases k' with
          | mk a b => simpa using hkeq.symm
        rw [hk' this] at hnear
        exact Bool.false_ne_true hnear
      obtain ⟨hf1, hf2⟩ := update_edge_weight_frame acc.1 k'.1 k'.2 mult conf none now k hne
      obtain ⟨hi1, hi2⟩ := ih _ hrest
      simp only [hnear, if_true]
      constructor
      · rw [hi1]
        simpa using hf1
      · rw [hi2]
        simpa using hf2
    · simp only [Bool.not_eq_true] at hnear
      simp only [hnear, Bool.false_eq_true, if_false]
      exact ih _ hrest

/-- At a key that matches the location box, the by-location fold performs
exactly one `update_edge_weight` with the fold's multiplier, confidence,
no report id, and the current clock. -/
theorem update_by_location_foldl_post (location : Location) (mult : W)
    (conf : ℚ) (r now : Time) (ks : List (Node × Node))
    (acc : RoadNetworkManager × Nat) (k : Node × Node)
    (hmem : k ∈ ks) (hnodup : ks.Nodup)
    (hnear : near_edge k location r = true)
    (ed : EdgeData) (hed : acc.1.lookupEdge k = some ed) :
    ((ks.foldl
        (fun acc k' =>
          if near_edge k' location r then
            let p := acc.1.update_edge_weight k'.1 k'.2 mult conf none now
            (p.1, if p.2 then acc.2 + 1 else acc.2)
          else acc)
        acc).1.lookupEdge k
      = some { ed with weight := (weight_and_status ed.base_weight mult).1 })
    ∧ ((ks.foldl
        (fun acc k' =>
          if near_edge k' location r then
            let p := acc.1.update_edge_weight k'.1 k'.2 mult conf none now
            (p.1, if p.2 then acc.2 + 1 else acc.2)
          else acc)
        acc).1.lookupStatus k
      = some (updated_status ((acc.1.lookupStatus k).getD {}) mult
          (weight_and_status ed.base_weight mult).2 conf none now)) := by
  induction ks generalizing acc with
  | nil => cases hmem
  | cons k' ks ih =>
    obtain ⟨hnotmem, hnodup'⟩ := List.nodup_cons.mp hnodup
    simp only [List.foldl_cons]
    rcases List.mem_cons.mp hmem with heq | hmemtl
    · subst heq
      obtain ⟨a, b⟩ := k
      obtain ⟨hu1, hu2⟩ :=
        update_edge_weight_lookups acc.1 a b mult conf none now ed hed
      simp only [hnear, if_true]
      have hframe := update_by_location_foldl_frame location mult conf r now ks
        ((acc.1.update_edge_weight a b mult conf none now).1,
          if (acc.1.update_edge_weight a b mult conf none now).2 then acc.2 + 1 else acc.2)
        (a, b)
        (fun k'' hk'' heq' => absurd (heq' ▸ hk'') hnotmem)
      refine ⟨?_, ?_⟩
      · rw [hframe.1]
        exact hu1
      · rw [hframe.2]
        exact hu2
    · have hne : k ≠ k' := fun h => hnotmem (h ▸ hmemtl)
      have hne' : k ≠ (k'.1, k'.2) := by
        intro h
        exact hne (by rw [h])
      by_cases hnear' : near_edge k' location r = true
      · obtain ⟨hf1, hf2⟩ :=
          update_edge_weight_frame acc.1 k'.1 k'.2 mult conf none now k hne'
        simp only [hnear', if_true]
        have := ih ((acc.1.update_edge_weight k'.1 k'.2 mult conf none now).1,
            if (acc.1.update_edge_weight k'.1 k'.2 mult conf none now).2 then acc.2 + 1
            else acc.2)
          hmemtl hnodup' (by simpa using hed.symm.trans hf1.symm |>.symm)
        rw [hf2] at this
        exact this
      · simp only [Bool.not_eq_true] at hnear'
        simp only [hnear', Bool.false_eq_true, if_false]
        exact ih acc hmemtl hnodup' hed

end RoadNetworkManager

section C9

open RoadNetworkManager

/-- Auxiliary form of the C9 projection property, shared by the claim's
theorem and its counterexample. -/
theorem apply_agent_report_projection_aux (m : RoadNetworkManager)
    (report : AgentReport) (now : Time) (mult : W)
    (himp : EVENT_WEIGHT_IMPACT report.event_type = some mult)
    (k : Node × Node) (hnear : near_edge k report.location (1/1000) = true)
    (hmem : k ∈ m.edges.map (·.1)) (hnodup : (m.edges.map (·.1)).Nodup)
    (ed : EdgeData) (hed : m.lookupEdge k = some ed) :
    ∃ st', (m.apply_agent_report report now).1.lookupStatus k = some st'
      ∧ st'.confidence = report.confidence
      ∧ st'.last_update = some now
      ∧ st'.reports = ((m.lookupStatus k).getD {}).reports := by
  unfold apply_agent_report
  rw [himp]
  obtain ⟨-, h2⟩ := update_by_location_foldl_post report.location mult
    report.confidence (1/1000) now (m.edges.map (·.1)) (m, 0) k hmem hnodup hnear ed hed
  exact ⟨_, h2, rfl, rfl, rfl⟩

/-- C9 (amended): projecting a road-affecting agent report onto a matching
edge overwrites the edge's stored confidence with the report's confidence
and sets `last_update` to the wall-clock time of the update (`now`, i.e.
`datetime.utcnow()`) — not to the report's timestamp — and leaves the
contributing-report list unchanged, because `apply_agent_report` never
forwards the report's id to `update_edge_weight`. -/
theorem apply_agent_report_projection (m : RoadNetworkManager)
    (report : AgentReport) (now : Time) (mult : W)
    (himp : EVENT_WEIGHT_IMPACT report.event_type = some mult)
    (k : Node × Node) (hnear : near_edge k report.location (1/1000) = true)
    (hmem : k ∈ m.edges.map (·.1)) (hnodup : (m.edges.map (·.1)).Nodup)
    (ed : EdgeData) (hed : m.lookupEdge k = some ed) :
    ∃ st', (m.apply_agent_report report now).1.lookupStatus k = some st'
      ∧ st'.confidence = report.confidence
      ∧ st'.last_update = some now
      ∧ st'.reports = ((m.lookupStatus k).getD {}).reports :=
  apply_agent_report_projection_aux m report now mult himp k hnear hmem hnodup ed hed

/-- Concrete one-edge manager whose edge midpoint is `(1, 0)`. -/
def mC9 : RoadNetworkManager :=
  { nodes := [(0, 0), (2, 0)]
    edges := [(((0, 0), (2, 0)),
      { length := 100, base_weight := 100, weight := W.fin 100 })]
    edge_status := [(((0, 0), (2, 0)), {})] }

/-- Concrete road-damage report at the edge midpoint, with id `"r1"` and
timestamp `5`. -/
def rC9 : AgentReport :=
  { id := "r1", timestamp := 5, event_type := EventType.road_damage
    location := { lat := 0, lon := 1 }, confidence := 9/10 }

/-- C9 counterexample: after projecting `rC9` (applied at wall-clock time
`7`), the matching edge's contributing-report list is still empty — the
report's id `"r1"` was not appended — and `last_update` is the update
time `7`, not the report's timestamp `5`. -/
theorem apply_agent_report_claim_false :
    (((mC9.apply_agent_report rC9 7).1.lookupStatus ((0, 0), (2, 0))).map
        EdgeStatus.reports = some [])
    ∧ (((mC9.apply_agent_report rC9 7).1.lookupStatus ((0, 0), (2, 0))).map
        EdgeStatus.last_update = some (some 7))
    ∧ rC9.id = "r1" ∧ rC9.timestamp = 5 ∧ ((5 : ℚ) ≠ 7)
    ∧ ("r1" ∉ ([] : List String)) := by
  refine ⟨?_, ?_, rfl, rfl, by norm_num, by simp⟩ <;>
  · obtain ⟨st', h, hc, hl, hr⟩ := apply_agent_report_projection_aux mC9 rC9 7 (W.fin 3)
      rfl ((0, 0), (2, 0)) (by norm_num [near_edge, qabs, rC9])
      (by simp [mC9]) (by simp [mC9])
      { length := 100, base_weight := 100, weight := W.fin 100 } rfl
    rw [h]
    simp only [Option.map_some', Option.some.injEq]
    first
      | exact hr
      | exact hl

/-- Witness for `apply_agent_report_projection` at the same concrete
manager and report. -/
theorem apply_agent_report_projection_witness :
    ∃ st', (mC9.apply_agent_report rC9 7).1.lookupStatus ((0, 0), (2, 0)) = some st'
      ∧ st'.confidence = rC9.confidence
      ∧ st'.last_update = some 7
      ∧ st'.reports = ((mC9.lookupStatus ((0, 0), (2, 0))).getD {}).reports :=
  apply_agent_report_projection mC9 rC9 7 (W.fin 3) rfl ((0, 0), (2, 0))
    (by simp [near_edge, qabs, rC9]) (by simp [mC9]) (by simp [mC9])
    { length := 100, base_weight := 100, weight := W.fin 100 } rfl

end C9

namespace RoadNetworkManager

/-- Model: `apply_agent_report` leaves every edge key outside the report's
location box untouched. -/
theorem apply_agent_report_frame (m : RoadNetworkManager) (report : AgentReport)
    (now : Time) (k : Node × Node)
    (hk : EVENT_WEIGHT_IMPACT report.event_type = none
      ∨ near_edge k report.location (1/1000) = false) :
    (m.apply_agent_report report now).1.lookupEdge k = m.lookupEdge k
    ∧ (m.apply_agent_report report now).1.lookupStatus k = m.lookupStatus k := by
  unfold apply_agent_report
  cases himp : EVENT_WEIGHT_IMPACT report.event_type with
  | none => exact ⟨rfl, rfl⟩
  | some mult =>
    rcases hk with hk | hk
    · rw [himp] at hk
      cases hk
    · exact update_by_location_foldl_frame report.location mult report.confidence
        (1/1000) now (m.edges.map (·.1)) (m, 0) k (fun k' _ h => h ▸ hk)

end RoadNetworkManager

namespace Orchestrator

open RoadNetworkManager

/-- Model: `Orchestrator.apply_intelligence_to_network` (orchestrator.py:143-160):
for each agent's report list (in gathering order), apply every report to
the road network — with no reset beforehand — and total the number of
edge updates.  (The refresh of the router's raw event data on line 158
has no effect on the road network.) -/
def apply_intelligence_to_network (m : RoadNetworkManager)
    (intelligence : List (String × List AgentReport)) (now : Time) :
    RoadNetworkManager × Nat :=
  intelligence.foldl
    (fun acc pr =>
      pr.2.foldl
        (fun a r =>
          let p := a.1.apply_agent_report r now
          (p.1, a.2 + p.2))
        acc)
    (m, 0)

/-- Folding one report list never touches an edge key outside every
report's location box. -/
theorem foldl_reports_frame (now : Time) (rs : List AgentReport)
    (acc : RoadNetworkManager × Nat) (k : Node × Node)
    (hk : ∀ r ∈ rs, EVENT_WEIGHT_IMPACT r.event_type = none
      ∨ near_edge k r.location (1/1000) = false) :
    ((rs.foldl
        (fun a r =>
          let p := a.1.apply_agent_report r now
          (p.1, a.2 + p.2))
        acc).1.lookupEdge k = acc.1.lookupEdge k)
    ∧ ((rs.foldl
        (fun a r =>
          let p := a.1.apply_agent_report r now
          (p.1, a.2 + p.2))
        acc).1.lookupStatus k = acc.1.lookupStatus k) := by
  induction rs generalizing acc with
  | nil => exact ⟨rfl, rfl⟩
  | cons r rs ih =>
    have hr := hk r (List.mem_cons_self r rs)
    have hrest : ∀ r' ∈ rs, EVENT_WEIGHT_IMPACT r'.event_type = none
        ∨ near_edge k r'.location (1/1000) = false :=
      fun r' hmem => hk r' (List.mem_cons_of_mem r hmem)
    obtain ⟨hf1, hf2⟩ := apply_agent_report_frame acc.1 r now k hr
    simp only [List.foldl_cons]
    obtain ⟨hi1, hi2⟩ := ih ((acc.1.apply_agent_report r now).1,
      acc.2 + (acc.1.apply_agent_report r now).2) hrest
    exact ⟨hi1.trans hf1, hi2.trans hf2⟩

/-- The nested per-agent fold preserves every edge key outside all of the
reports' location boxes, from any starting accumulator. -/
theorem intelligence_foldl_frame (now : Time)
    (intelligence : List (String × List AgentReport))
    (acc : RoadNetworkManager × Nat) (k : Node × Node)
    (hk : ∀ pr ∈ intelligence, ∀ r ∈ pr.2,
      EVENT_WEIGHT_IMPACT r.event_type = none
      ∨ near_edge k r.location (1/1000) = false) :
    ((intelligence.foldl
        (fun acc pr =>
          pr.2.foldl
            (fun a r =>
              let p := a.1.apply_agent_report r now
              (p.1, a.2 + p.2))
            acc)
        acc).1.lookupEdge k = acc.1.lookupEdge k)
    ∧ ((intelligence.foldl
        (fun acc pr =>
          pr.2.foldl
            (fun a r =>
              let p := a.1.apply_agent_report r now
              (p.1, a.2 + p.2))
            acc)
        acc).1.lookupStatus k = acc.1.lookupStatus k) := by
  induction intelligence generalizing acc with
  | nil => exact ⟨rfl, rfl⟩
  | cons pr rest ih =>
    simp only [List.foldl_cons]
    have hpr := hk pr (List.mem_cons_self pr rest)
    have hrest : ∀ pr' ∈ rest, ∀ r ∈ pr'.2,
        EVENT_WEIGHT_IMPACT r.event_type = none
        ∨ near_edge k r.location (1/1000) = false :=
      fun pr' hmem => hk pr' (List.mem_cons_of_mem pr hmem)
    obtain ⟨hs1, hs2⟩ := foldl_reports_frame now pr.2 acc k hpr
    obtain ⟨hi1, hi2⟩ := ih _ hrest
    exact ⟨hi1.trans hs1, hi2.trans hs2⟩

/-- C3 (amended, frame part): the query pipeline's projection step applies
the gathered reports to the road network as it stands — there is no
reset — so any edge outside every gathered report's location box keeps
whatever weight and status it had before the query, including state left
over from earlier queries. -/
theorem apply_intelligence_no_reset_frame (m : RoadNetworkManager)
    (intelligence : List (String × List AgentReport)) (now : Time)
    (k : Node × Node)
    (hk : ∀ pr ∈ intelligence, ∀ r ∈ pr.2,
      EVENT_WEIGHT_IMPACT r.event_type = none
      ∨ near_edge k r.location (1/1000) = false) :
    (apply_intelligence_to_network m intelligence now).1.lookupEdge k
        = m.lookupEdge k
    ∧ (apply_intelligence_to_network m intelligence now).1.lookupStatus k
        = m.lookupStatus k :=
  intelligence_foldl_frame now intelligence (m, 0) k hk

end Orchestrator

/-! ### Report aggregation (backend/utils/report_aggregator.py)

`_haversine_km` is trigonometric (sin/cos/atan2 of radians), hence not
rational-valued; the clustering is therefore parametrized by the distance
function `dist`, exactly as the code is parametrized by its internal
`_haversine_km` helper. -/

/-- One step of the greedy clustering loop of `group_reports_by_location`
(report_aggregator.py:44-61): join the first cluster whose running
centroid `(clat, clon)` is within `proximity_km`, updating the centroid
as a running average, else start a new cluster at the end. -/
def assign_report (dist : Location → Location → ℚ) (proximity_km : ℚ)
    (r : AgentReport) :
    List (List AgentReport × (ℚ × ℚ)) → List (List AgentReport × (ℚ × ℚ))
  | [] => [([r], (r.location.lat, r.location.lon))]
  | (c, cen) :: rest =>
    if dist r.location { lat := cen.1, lon := cen.2 } ≤ proximity_km then
      let c' := c ++ [r]
      let n : ℚ := c'.length
      (c', (cen.1 + (r.location.lat - cen.1) / n,
            cen.2 + (r.location.lon - cen.2) / n)) :: rest
    else
      (c, cen) :: assign_report dist proximity_km r rest

/-- Model: `group_reports_by_location` (report_aggregator.py:23-63). -/
def group_reports_by_location (dist : Location → Location → ℚ)
    (reports : List AgentReport) (proximity_km : ℚ) : List (List AgentReport) :=
  (reports.foldl (fun cs r => assign_report dist proximity_km r cs) []).map (·.1)

section C8

theorem assign_report_join_perm (dist : Location → Location → ℚ)
    (prox : ℚ) (r : AgentReport) (cs : List (List AgentReport × (ℚ × ℚ))) :
    List.Perm ((assign_report dist prox r cs).map (·.1)).flatten
      (r :: (cs.map (·.1)).flatten) := by
  induction cs with
  | nil => simp [assign_report]
  | cons c rest ih =>
    obtain ⟨c, cen⟩ := c
    by_cases h : dist r.location { lat := cen.1, lon := cen.2 } ≤ prox
    · simp only [assign_report, if_pos h, List.map_cons, List.flatten_cons]
      exact ((List.perm_append_singleton r c).append_right _)
    · simp only [assign_report, if_neg h, List.map_cons, List.flatten_cons]
      exact (ih.append_left c).trans List.perm_middle

theorem group_foldl_join_perm (dist : Location → Location → ℚ) (prox : ℚ)
    (reports : List AgentReport) (cs : List (List AgentReport × (ℚ × ℚ))) :
    List.Perm
      (((reports.foldl (fun cs r => assign_report dist prox r cs) cs).map
        (·.1)).flatten)
      (((cs.map (·.1)).flatten) ++ reports) := by
  induction reports generalizing cs with
  | nil => simp
  | cons r rs ih =>
    simp only [List.foldl_cons]
    refine ((ih _).trans ?_)
    refine (((assign_report_join_perm dist prox r cs).append_right rs).trans ?_)
    exact List.perm_middle.symm

/-- C8 (amended, partition part): the greedy clustering returns a
partition of the input — every report lands in exactly one cluster
(counting multiplicity): the concatenation of the clusters is a
permutation of the input list. -/
theorem group_reports_by_location_partition (dist : Location → Location → ℚ)
    (reports : List AgentReport) (prox : ℚ) :
    List.Perm (group_reports_by_location dist reports prox).flatten reports := by
  simpa [group_reports_by_location] using group_foldl_join_perm dist prox reports []

/-- The three reports of the C8 counterexample: `rB` starts its own
cluster (0.9 from `rA`), then `rC` — within `proximity_km` of both — is
greedily assigned to `rA`'s cluster, the first match. -/
def rA : AgentReport :=
  { id := "a", timestamp := 0, event_type := EventType.road_closure
    location := { lat := 0, lon := 0 }, confidence := 1 }

def rB : AgentReport :=
  { id := "b", timestamp := 0, event_type := EventType.road_closure
    location := { lat := 9/10, lon := 0 }, confidence := 1 }

def rC : AgentReport :=
  { id := "c", timestamp := 0, event_type := EventType.road_closure
    location := { lat := 1/2, lon := 0 }, confidence := 1 }

/-- The distance oracle of the counterexample: all three reports lie on
one meridian, where any geodesic distance is proportional to the latitude
difference; the proportionality constant is folded into the coordinates. -/
def distC8 (a b : Location) : ℚ := qabs (a.lat - b.lat)

/-- C8 counterexample: reports `rB` and `rC` are within `proximity_km =
1/2` of each other, yet the clustering separates them: `rC` joins `rA`'s
cluster (the first whose centroid is in range), while `rB` sits alone.
The claimed property — any two reports within `proximity_km` share a
cluster — is false of the greedy single-pass algorithm. -/
theorem group_reports_by_location_claim_false :
    (group_reports_by_location distC8 [rA, rB, rC] (1/2) = [[rA, rC], [rB]])
    ∧ (distC8 rB.location rC.location ≤ 1/2)
    ∧ (∀ c ∈ [[rA, rC], [rB]], ¬ (rB ∈ c ∧ rC ∈ c)) := by
  refine ⟨?_, by norm_num [distC8, qabs, rB, rC], ?_⟩
  · norm_num [group_reports_by_location, assign_report, distC8, qabs, rA, rB, rC]
  · intro c hc hBC
    obtain ⟨hB, hC⟩ := hBC
    rcases List.mem_cons.mp hc with hc | hc
    · subst hc
      rcases List.mem_cons.mp hB with h | h
      · simp [rA, rB] at h
      · rw [List.mem_singleton] at h
        simp [rB, rC] at h
    · rw [List.mem_singleton] at hc
      subst hc
      rw [List.mem_singleton] at hC
      simp [rB, rC] at hC

end C8

/-! ### Conflict-resolution fallback (orchestrator.py:536-568) -/

/-- The resolved status strings `"blocked" | "damaged" | "clear" |
"unknown"`. -/
inductive ResolvedStatus where
  | blocked
  | damaged
  | clear
  | unknown
deriving DecidableEq, Repr

/-- A conflict resolution record (the free-text `reasoning` field carries
no information any claim consumes and is omitted). -/
structure Resolution where
  road_id : String
  resolved_status : ResolvedStatus
  confidence : ℚ
  resolved_by : String
deriving DecidableEq, Repr

/-- The `status_map` dict of `_resolve_conflicts_fallback`
(orchestrator.py:551-557), with `.get(…, "unknown")` for missing kinds. -/
def status_map : EventType → ResolvedStatus
  | EventType.road_closure => ResolvedStatus.blocked
  | EventType.bridge_collapse => ResolvedStatus.blocked
  | EventType.flooding => ResolvedStatus.blocked
  | EventType.road_damage => ResolvedStatus.damaged
  | EventType.road_clear => ResolvedStatus.clear
  | _ => ResolvedStatus.unknown

/-- Python's `max(reports, key=lambda r: r.confidence)`: scan left to
right, replacing the current best only on a strictly larger key (so the
first maximal element wins). -/
def max_by_confidence (r0 : AgentReport) (rs : List AgentReport) : AgentReport :=
  rs.foldl (fun best r => if best.confidence < r.confidence then r else best) r0

/-- Model: `Orchestrator._resolve_conflicts_fallback` (orchestrator.py:536-568). -/
def resolve_conflicts_fallback (reports : List AgentReport) (road_id : String) :
    Resolution :=
  match reports with
  | [] =>
    { road_id := road_id, resolved_status := ResolvedStatus.unknown
      confidence := 0, resolved_by := "fallback" }
  | r0 :: rest =>
    let best := max_by_confidence r0 rest
    { road_id := road_id, resolved_status := status_map best.event_type
      confidence := best.confidence, resolved_by := "fallback" }

section C5

theorem max_by_confidence_mem (r0 : AgentReport) (rs : List AgentReport) :
    max_by_confidence r0 rs ∈ r0 :: rs := by
  induction rs generalizing r0 with
  | nil => exact List.mem_singleton.mpr rfl
  | cons r rs ih =>
    show List.foldl _ (if r0.confidence < r.confidence then r else r0) rs ∈ _
    have h := ih (if r0.confidence < r.confidence then r else r0)
    rw [max_by_confidence] at h
    rcases List.mem_cons.mp h with h | h
    · rw [h]
      by_cases hc : r0.confidence < r.confidence
      · rw [if_pos hc]
        exact List.mem_cons_of_mem _ (List.mem_cons_self r rs)
      · rw [if_neg hc]
        exact List.mem_cons_self r0 _
    · exact List.mem_cons_of_mem _ (List.mem_cons_of_mem r h)

theorem max_by_confidence_ge (r0 : AgentReport) (rs : List AgentReport) :
    ∀ r ∈ r0 :: rs, r.confidence ≤ (max_by_confidence r0 rs).confidence := by
  induction rs generalizing r0 with
  | nil =>
    intro r hr
    rcases List.mem_cons.mp hr with h | h
    · rw [h]
      exact le_refl _
    · exact absurd h (List.not_mem_nil r)
  | cons r rs ih =>
    intro x hx
    show x.confidence ≤
      (List.foldl _ (if r0.confidence < r.confidence then r else r0) rs).confidence
    have hb : r0.confidence ≤ (if r0.confidence < r.confidence then r else r0).confidence
        ∧ r.confidence ≤ (if r0.confidence < r.confidence then r else r0).confidence := by
      by_cases hc : r0.confidence < r.confidence
      · rw [if_pos hc]
        exact ⟨hc.le, le_refl _⟩
      · rw [if_neg hc]
        exact ⟨le_refl _, not_lt.mp hc⟩
    have hih := ih (if r0.confidence < r.confidence then r else r0)
    rw [max_by_confidence] at hih
    have hmax := hih _ (List.mem_cons_self _ rs)
    rcases List.mem_cons.mp hx with hx | hx
    · subst hx
      exact le_trans hb.1 hmax
    · rcases List.mem_cons.mp hx with hx | hx
      · subst hx
        exact le_trans hb.2 hmax
      · exact hih x (List.mem_cons_of_mem _ hx)

/-- C5: the deterministic conflict-resolution fallback returns, for a
non-empty cluster, the event kind of a maximal-confidence report mapped
through `status_map` together with that report's confidence, and for the
empty cluster the status `"unknown"` with confidence `0`. -/
theorem resolve_conflicts_fallback_spec (reports : List AgentReport)
    (road_id : String) :
    (reports = [] →
      resolve_conflicts_fallback reports road_id
        = { road_id := road_id, resolved_status := ResolvedStatus.unknown
            confidence := 0, resolved_by := "fallback" })
    ∧ (reports ≠ [] →
      ∃ r ∈ reports,
        (∀ r' ∈ reports, r'.confidence ≤ r.confidence)
        ∧ (resolve_conflicts_fallback reports road_id).resolved_status
            = status_map r.event_type
        ∧ (resolve_conflicts_fallback reports road_id).confidence
            = r.confidence) := by
  constructor
  · intro h
    subst h
    rfl
  · intro h
    match reports with
    | [] => exact absurd rfl h
    | r0 :: rest =>
      exact ⟨max_by_confidence r0 rest, max_by_confidence_mem r0 rest,
        max_by_confidence_ge r0 rest, rfl, rfl⟩

/-- Witness for `resolve_conflicts_fallback_spec` on a concrete
two-report conflict: the 0.9-confidence closure beats the 0.5-confidence
clearance, yielding `"blocked"` at confidence 0.9. -/
theorem resolve_conflicts_fallback_spec_witness :
    ∃ r ∈ [{ rA with confidence := 9/10 },
           { rC with event_type := EventType.road_clear, confidence := 1/2 }],
      (∀ r' ∈ [{ rA with confidence := 9/10 },
           { rC with event_type := EventType.road_clear, confidence := 1/2 }],
        r'.confidence ≤ r.confidence)
      ∧ (resolve_conflicts_fallback
          [{ rA with confidence := 9/10 },
           { rC with event_type := EventType.road_clear, confidence := 1/2 }]
          "I-40").resolved_status = status_map r.event_type
      ∧ (resolve_conflicts_fallback
          [{ rA with confidence := 9/10 },
           { rC with event_type := EventType.road_clear, confidence := 1/2 }]
          "I-40").confidence = r.confidence :=
  (resolve_conflicts_fallback_spec _ "I-40").2 (by simp)

end C5

/-! ### Shelters and delivery-route ranking (orchestrator.py:634-770) -/

/-- A shelter record from `shelters.json` (the boolean amenity flags and
contact field play no role in any claim). -/
structure Shelter where
  id : String
  name : String := ""
  location : Location
  capacity : Int
  current_occupancy : Int
  opened_at : Option Time := none
  closed_at : Option Time := none
  needs : List String := []
deriving DecidableEq, Repr

/-- The sort key of `_get_priority_shelters` (orchestrator.py:652-655):
`current_occupancy / max(capacity, 1)`. -/
def occupancy_ratio (s : Shelter) : ℚ :=
  (s.current_occupancy : ℚ) / ((max s.capacity 1 : ℤ) : ℚ)

/-- Model: `Orchestrator._get_priority_shelters` (orchestrator.py:634-657): keep
the shelters whose `opened_at` field is present (Python truthiness — the
scenario time is never consulted) and whose needs list is non-empty, then
stably sort by occupancy ratio, fullest first (`list.sort` with
`reverse=True` is stable, which `insertionSort` with a non-strict `≥` on
keys reproduces). -/
def get_priority_shelters (shelters : List Shelter) : List Shelter :=
  (shelters.filter (fun s => s.opened_at.isSome && !s.needs.isEmpty)).insertionSort
    (fun a b => occupancy_ratio b ≤ occupancy_ratio a)

/-- Shelter activity as the specification words it: "Active at scenario
time T iff `opened-at ≤ T` and `(closed-at absent or closed-at > T)`"
(spec §3).  Stated for comparison with `get_priority_shelters`. -/
def spec_shelter_active (s : Shelter) (t : Time) : Bool :=
  match s.opened_at with
  | none => false
  | some o => o ≤ t && (match s.closed_at with
      | none => true
      | some c => t < c)

section C6

/-- C6 (amended): the candidate shelters are exactly the shelters whose
`opened_at` field is present and whose needs list is non-empty; the
scenario time plays no part in the selection. -/
theorem mem_get_priority_shelters (shelters : List Shelter) (s : Shelter) :
    s ∈ get_priority_shelters shelters
      ↔ s ∈ shelters ∧ s.opened_at.isSome ∧ s.needs ≠ [] := by
  unfold get_priority_shelters
  rw [List.mem_insertionSort, List.mem_filter]
  simp [and_assoc]

/-- The C6 counterexample shelter: opened at time 10, closed at time 20,
with a non-empty needs list. -/
def sC6 : Shelter :=
  { id := "s1", location := { lat := 0, lon := 0 }, capacity := 100
    current_occupancy := 10, opened_at := some 10, closed_at := some 20
    needs := ["water"] }

/-- C6 counterexample: at scenario time 30 the shelter `sC6` has been
closed for 10 hours (`closed_at = 20 ≤ 30`), so by the claim it must
never be a candidate — yet `_get_priority_shelters` returns it, because
the code only tests that `opened_at` is present and needs are non-empty. -/
theorem get_priority_shelters_claim_false :
    get_priority_shelters [sC6] = [sC6]
    ∧ spec_shelter_active sC6 30 = false := by
  constructor
  · simp [get_priority_shelters, sC6, List.insertionSort, List.orderedInsert]
  · norm_num [spec_shelter_active, sC6]

end C6

/-- A planned route (router.py:16-53).  The mutable-counter route id, the
prose `reasoning`, the `directions` steps and `created_at` carry no
information any claim consumes and are omitted. -/
structure Route where
  origin : Location
  destination : Location
  waypoints : List Node := []
  distance_m : W := W.fin 0
  estimated_duration_min : W := W.fin 0
  confidence : ℚ := 1
deriving DecidableEq, Repr

/-- The `supply_to_need` mapping of `_plan_delivery_routes`
(orchestrator.py:688-702), in source order. -/
def supply_to_need : List (String × String) :=
  [("water_cases", "water"), ("blankets", "blankets"),
   ("medical_kits", "medical_supplies"), ("food_cases", "food"),
   ("generators", "generators"), ("fuel", "fuel"), ("diapers", "diapers"),
   ("baby_formula", "baby_formula"), ("pet_supplies", "pet_supplies"),
   ("hygiene_kits", "hygiene_kits"), ("cots", "cots"),
   ("medications", "medications"), ("charging_stations", "charging_stations")]

/-- The matched-needs loop of `_plan_delivery_routes`
(orchestrator.py:712-715): iterate the mapping, collecting need names
whose supply key occurs in the parsed supplies and whose need occurs in
the shelter's needs. -/
def matched_needs (supplies : List (String × Int)) (needs : List String) :
    List String :=
  supply_to_need.filterMap (fun p =>
    if (supplies.any (fun q => q.1 = p.1)) && needs.contains p.2 then some p.2
    else none)

/-- Model: `need_score` (orchestrator.py:719): ratio of matched needs to
`max(len(supplies), 1)`, or `1.0` when no supplies were parsed. -/
def need_score (supplies : List (String × Int)) (needs : List String) : ℚ :=
  if supplies.isEmpty then 1
  else ((matched_needs supplies needs).length : ℚ) / ((max supplies.length 1 : ℕ) : ℚ)

/-- Model: `proximity_score` (orchestrator.py:728). -/
def proximity_score (d : ℚ) : ℚ := max 0 (1 - d / 2)

/-- The combined shelter score (orchestrator.py:737), with the float
weights `0.4, 0.35, 0.25` as the exact rationals `2/5, 7/20, 1/4`.  The
planar degree distance `((Δlat)² + (Δlon)²)^(1/2)` is irrational in
general, so the scorer is parametrized by the distance function `dist`,
exactly as the clustering is by its haversine helper. -/
def score_shelter (dist : Location → Location → ℚ)
    (supplies : List (String × Int)) (origin : Location) (s : Shelter) : ℚ :=
  need_score supplies s.needs * (2/5)
    + proximity_score (dist origin s.location) * (7/20)
    + occupancy_ratio s * (1/4)

/-- One entry of the `scored_shelters` list (orchestrator.py:739-743). -/
structure ScoredShelter where
  shelter : Shelter
  matched_needs : List String
  score : ℚ
deriving DecidableEq, Repr

/-- The scoring loop of `_plan_delivery_routes` (orchestrator.py:705-743):
skip shelters with an empty needs set, score the rest in order. -/
def scored_shelters (dist : Location → Location → ℚ)
    (supplies : List (String × Int)) (origin : Location)
    (shelters : List Shelter) : List ScoredShelter :=
  shelters.filterMap (fun s =>
    if s.needs.isEmpty then none
    else some { shelter := s
                matched_needs := matched_needs supplies s.needs
                score := score_shelter dist supplies origin s })

/-- Model: `scored_shelters.sort(key=score, reverse=True)`
(orchestrator.py:746): Python's stable descending sort. -/
def rank_shelters (dist : Location → Location → ℚ)
    (supplies : List (String × Int)) (origin : Location)
    (shelters : List Shelter) : List ScoredShelter :=
  (scored_shelters dist supplies origin shelters).insertionSort
    (fun a b => b.score ≤ a.score)

/-- The route-emission loop of `_plan_delivery_routes`
(orchestrator.py:749-770): route to each of the top three ranked shelters
in rank order, keeping the routes the router produces.  The router (an
external collaborator wrapping graph search, ORS and haversine — see the
`plan_route` model below) is passed as `planRoute`. -/
def plan_delivery_routes (dist : Location → Location → ℚ)
    (planRoute : Location → Location → Option Route)
    (supplies : List (String × Int)) (origin : Option Location)
    (shelters : List Shelter) : List Route :=
  match origin with
  | none => []
  | some origin =>
    ((rank_shelters dist supplies origin shelters).take 3).filterMap
      (fun e => planRoute origin e.shelter.location)

/-- Model: `need_match` exactly as the claim words it. -/
def spec_need_match (supplies : List (String × Int)) (needs : List String) : ℚ :=
  if supplies = [] then 1
  else ((matched_needs supplies needs).length : ℚ) / max 1 (supplies.length : ℚ)

/-- The score formula exactly as the claim words it:
`0.40 × need_match + 0.35 × proximity + 0.25 × occupancy_ratio`. -/
def spec_score (dist : Location → Location → ℚ)
    (supplies : List (String × Int)) (origin : Location) (s : Shelter) : ℚ :=
  (2/5) * spec_need_match supplies s.needs
    + (7/20) * max 0 (1 - dist origin s.location / 2)
    + (1/4) * ((s.current_occupancy : ℚ) / max 1 (s.capacity : ℚ))

/-- The route-emission order exactly as the claim words it: strictly
decreasing score, or equal scores with strictly ascending shelter id. -/
def claim_rank_order (l : List ScoredShelter) : Prop :=
  List.Chain' (fun x y => y.score < x.score
    ∨ (y.score = x.score ∧ x.shelter.id < y.shelter.id)) l

section C7

theorem score_shelter_eq_spec (dist : Location → Location → ℚ)
    (supplies : List (String × Int)) (origin : Location) (s : Shelter) :
    score_shelter dist supplies origin s = spec_score dist supplies origin s := by
  unfold score_shelter spec_score need_score spec_need_match proximity_score
    occupancy_ratio
  have hcap : ((max s.capacity 1 : ℤ) : ℚ) = max 1 (s.capacity : ℚ) := by
    push_cast
    exact max_comm _ _
  have hlen : ((max supplies.length 1 : ℕ) : ℚ) = max 1 (supplies.length : ℚ) := by
    push_cast
    exact max_comm _ _
  rw [hcap, hlen]
  by_cases h : supplies = []
  · have hb : supplies.isEmpty = true := by simp [h]
    rw [if_pos hb, if_pos h]
    ring
  · have hb : ¬ supplies.isEmpty = true := by simpa [List.isEmpty_iff] using h
    rw [if_neg hb, if_neg h]
    ring

/-- C7 (amended): the ranked shelter list driving route emission is
sorted in non-increasing score, is a permutation of the scored
candidates, and each candidate's score is exactly the specification's
`0.40 × need_match + 0.35 × proximity + 0.25 × occupancy_ratio` formula;
ties between equal scores keep the candidate order (descending occupancy
ratio from `_get_priority_shelters`), not ascending shelter id. -/
theorem rank_shelters_spec (dist : Location → Location → ℚ)
    (supplies : List (String × Int)) (origin : Location)
    (shelters : List Shelter) :
    (rank_shelters dist supplies origin shelters).Sorted
        (fun a b => b.score ≤ a.score)
    ∧ List.Perm (rank_shelters dist supplies origin shelters)
        (scored_shelters dist supplies origin shelters)
    ∧ ∀ e ∈ rank_shelters dist supplies origin shelters,
        e.score = spec_score dist supplies origin e.shelter := by
  haveI : IsTotal ScoredShelter (fun a b => b.score ≤ a.score) :=
    ⟨fun a b => le_total b.score a.score⟩
  haveI : IsTrans ScoredShelter (fun a b => b.score ≤ a.score) :=
    ⟨fun _ _ _ hab hbc => le_trans hbc hab⟩
  refine ⟨List.sorted_insertionSort _ _, List.perm_insertionSort _ _, ?_⟩
  intro e he
  rw [rank_shelters, List.mem_insertionSort, scored_shelters,
    List.mem_filterMap] at he
  obtain ⟨s, _, hs⟩ := he
  by_cases hn : s.needs.isEmpty
  · rw [if_pos hn] at hs
    cases hs
  · rw [if_neg hn] at hs
    obtain rfl := Option.some.inj hs
    exact score_shelter_eq_spec dist supplies origin s

/-- C7 counterexample data: two candidate shelters with equal combined
scores.  `shA` (id `"a"`) sits at the origin with occupancy 1/2; `shB`
(id `"b"`) lies 4/7 degrees north with occupancy 9/10 — the proximity
deficit exactly cancels the occupancy surplus, so both score 7/8. -/
def shA : Shelter :=
  { id := "a", location := { lat := 0, lon := 0 }, capacity := 2
    current_occupancy := 1, opened_at := some 0, needs := ["water"] }

def shB : Shelter :=
  { id := "b", location := { lat := 4/7, lon := 0 }, capacity := 10
    current_occupancy := 9, opened_at := some 0, needs := ["water"] }

def originC7 : Location := { lat := 0, lon := 0 }

/-- Both shelters share the origin's longitude, so the planar degree
distance degenerates to the latitude difference. -/
def distC7 (a b : Location) : ℚ := qabs (a.lat - b.lat)

/-- A router collaborator that always produces a route (the order of the
emitted routes is all the counterexample inspects). -/
def planRouteC7 : Location → Location → Option Route :=
  fun o d => some { origin := o, destination := d }

theorem score_shA : score_shelter distC7 [] originC7 shA = 7/8 := by
  norm_num [score_shelter, need_score, proximity_score, occupancy_ratio,
    distC7, qabs, shA, originC7]

theorem score_shB : score_shelter distC7 [] originC7 shB = 7/8 := by
  norm_num [score_shelter, need_score, proximity_score, occupancy_ratio,
    distC7, qabs, shB, originC7]

theorem prio_C7 : get_priority_shelters [shA, shB] = [shB, shA] := by
  norm_num [get_priority_shelters, List.insertionSort, List.orderedInsert,
    occupancy_ratio, shA, shB]

/-- C7 counterexample: with no parsed supplies, shelters `shA` and `shB`
tie at score 7/8 and `shA.id < shB.id`, so the claim's tie-break demands
`shA`'s route first; but the candidates arrive occupancy-descending
(`shB` first) and the stable sort keeps that order, so the response's
routes run to `shB` then `shA`, violating the claimed ascending-id
tie-break. -/
theorem plan_delivery_routes_claim_false :
    shA.id < shB.id
    ∧ score_shelter distC7 [] originC7 shA = score_shelter distC7 [] originC7 shB
    ∧ (plan_delivery_routes distC7 planRouteC7 [] (some originC7)
        (get_priority_shelters [shA, shB])).map Route.destination
        = [shB.location, shA.location]
    ∧ ¬ claim_rank_order (rank_shelters distC7 [] originC7
        (get_priority_shelters [shA, shB])) := by
  have hstr : ¬ (shB.id < shA.id) := by
    show ¬ (("b" : String) < "a")
    rw [String.lt_iff_toList_lt]
    decide
  have hAe : shA.needs.isEmpty = false := rfl
  have hBe : shB.needs.isEmpty = false := rfl
  refine ⟨?_, by rw [score_shA, score_shB], ?_, ?_⟩
  · show ("a" : String) < "b"
    rw [String.lt_iff_toList_lt]
    decide
  · rw [prio_C7]
    norm_num [plan_delivery_routes, rank_shelters, scored_shelters,
      List.insertionSort, List.orderedInsert, score_shA, score_shB,
      hAe, hBe, planRouteC7, List.filterMap_cons, List.filterMap_nil]
  · rw [prio_C7]
    norm_num [claim_rank_order, rank_shelters, scored_shelters,
      List.insertionSort, List.orderedInsert, score_shA, score_shB,
      hAe, hBe, List.chain'_cons, List.chain'_singleton, hstr]
    show shA.id.data ≤ shB.id.data
    decide

end C7

/-! ### Graph search and route planning
(road_network.py:263-321, router.py:84-151) -/

/-- Extended addition: `∞` absorbs, as float addition does. -/
def W.add : W → W → W
  | W.fin a, W.fin b => W.fin (a + b)
  | _, _ => W.inf

/-- Extended comparison `≤`. -/
def W.leb : W → W → Bool
  | W.fin a, W.fin b => decide (a ≤ b)
  | W.fin _, W.inf => true
  | W.inf, W.fin _ => false
  | W.inf, W.inf => true

namespace RoadNetworkManager

/-- Squared planar distance from a node to a location.  The code compares
`dist ** 0.5` values; `argmin` is invariant under the monotone square
root, so the model compares the squares. -/
def node_dist_sq (n : Node) (location : Location) : ℚ :=
  (n.1 - location.lon)^2 + (n.2 - location.lat)^2

/-- Model: `RoadNetworkManager.get_nearest_node` (road_network.py:263-287):
scan all nodes, keeping the first strict minimizer. -/
def get_nearest_node (m : RoadNetworkManager) (location : Location) : Option Node :=
  (m.nodes.foldl
    (fun acc n =>
      match acc with
      | none => some (n, node_dist_sq n location)
      | some (b, d) =>
        if node_dist_sq n location < d then some (n, node_dist_sq n location)
        else some (b, d))
    none).map (·.1)

/-- Extract a minimal-distance entry from the frontier (first minimum),
returning it and the remaining frontier. -/
def pickMin : List (Node × W × List Node) →
    Option ((Node × W × List Node) × List (Node × W × List Node))
  | [] => none
  | x :: xs =>
    match pickMin xs with
    | none => some (x, [])
    | some (mn, rest) =>
      if W.leb x.2.1 mn.2.1 then some (x, xs) else some (mn, x :: rest)

/-- The Dijkstra loop: pop the closest frontier entry, stop at the target,
skip finalized nodes, otherwise relax the node's outgoing edges with the
dynamic `weight` attribute.  The fuel bounds the number of pops (each
frontier entry is popped at most once, and at most `1 + |E|` entries are
ever created). -/
def dijkstraLoop (g : RoadNetworkManager) (t : Node) :
    Nat → List Node → List (Node × W × List Node) → Option (List Node × W)
  | 0, _, _ => none
  | fuel+1, visited, frontier =>
    match pickMin frontier with
    | none => none
    | some ((u, d, path), rest) =>
      if u = t then some ((u :: path).reverse, d)
      else if visited.contains u then dijkstraLoop g t fuel visited rest
      else
        let nbrs := g.edges.filterMap
          (fun p => if p.1.1 = u then some (p.1.2, p.2.weight) else none)
        dijkstraLoop g t fuel (u :: visited)
          (rest ++ nbrs.map (fun q => (q.1, W.add d q.2, u :: path)))

/-- Model: `networkx.dijkstra_path` together with `dijkstra_path_length`
(road_network.py:313-317), as one shortest-path search over the dynamic
`weight` attribute, returning the node path and its total weight, or
`none` when the target is unreachable (`NetworkXNoPath`). -/
def dijkstra (g : RoadNetworkManager) (s t : Node) : Option (List Node × W) :=
  dijkstraLoop g t (g.edges.length + 2) [] [(s, W.fin 0, [])]

/-- The dynamically-shaped value `find_route` returns: the Python code
builds a plain tuple, whose arity its callers must match. -/
inductive RouteResultItem where
  | path (p : List Node)
  | weight (w : W)
  | geometry (g : List Node)
deriving DecidableEq, Repr

/-- Model: `RoadNetworkManager.find_route` (road_network.py:289-321): nearest
nodes, Dijkstra, and on success the TWO-element tuple
`(path, total_weight)` — no detailed geometry. -/
def find_route (m : RoadNetworkManager) (start stop : Location) :
    Option (List RouteResultItem) :=
  match m.get_nearest_node start, m.get_nearest_node stop with
  | some s, some t =>
    match dijkstra m s t with
    | some (p, w) => some [RouteResultItem.path p, RouteResultItem.weight w]
    | none => none
  | _, _ => none

end RoadNetworkManager

/-- A runtime error; tuple unpacking of the wrong arity raises
`ValueError` in Python. -/
inductive PyError where
  | valueError
deriving DecidableEq, Repr

/-- The unpacking `node_path, total_weight, detailed_geometry = result`
in `Router.plan_route` (router.py:107): succeeds only on a three-element
tuple. -/
def unpack3 (l : List RoadNetworkManager.RouteResultItem) :
    Except PyError (RoadNetworkManager.RouteResultItem
      × RoadNetworkManager.RouteResultItem
      × RoadNetworkManager.RouteResultItem) :=
  match l with
  | [a, b, c] => Except.ok (a, b, c)
  | _ => Except.error PyError.valueError

/-- Model: `Router.plan_route` (router.py:84-151).  `directRoute` is the
`_plan_direct_route` fallback (ORS collaborator, haversine trigonometry);
`buildRoute` is the Route construction following a successful unpack
(hazard collection, ORS attempt, duration estimate) — both are opaque to
every claim: the former because the claim only constrains when it is
taken, the latter because the unpack of `find_route`'s two-element tuple
fails before it can run.  Exceptions propagate as `Except.error`. -/
def plan_route (m : RoadNetworkManager)
    (directRoute : Location → Location → Route)
    (buildRoute : RoadNetworkManager.RouteResultItem →
      RoadNetworkManager.RouteResultItem →
      RoadNetworkManager.RouteResultItem → Route)
    (origin destination : Location) : Except PyError Route :=
  match m.find_route origin destination with
  | none => Except.ok (directRoute origin destination)
  | some result =>
    match unpack3 result with
    | Except.error e => Except.error e
    | Except.ok (np, tw, dg) => Except.ok (buildRoute np tw dg)

section C2

/-- Whatever `find_route` successfully returns is a two-element tuple. -/
theorem find_route_pair (m : RoadNetworkManager) (start stop : Location)
    (result : List RoadNetworkManager.RouteResultItem)
    (h : m.find_route start stop = some result) :
    ∃ p w, result = [RoadNetworkManager.RouteResultItem.path p,
      RoadNetworkManager.RouteResultItem.weight w] := by
  unfold RoadNetworkManager.find_route at h
  cases hs : m.get_nearest_node start with
  | none => rw [hs] at h; cases h
  | some s =>
    cases ht : m.get_nearest_node stop with
    | none => rw [hs, ht] at h; cases h
    | some t =>
      rw [hs, ht] at h
      dsimp only at h
      cases hd : RoadNetworkManager.dijkstra m s t with
      | none => rw [hd] at h; cases h
      | some pw =>
        obtain ⟨p0, w0⟩ := pw
        rw [hd] at h
        exact ⟨p0, w0, (Option.some.inj h).symm⟩

/-- C2 (code bug): whenever the internal shortest-path search succeeds,
`Router.plan_route` raises a `ValueError` instead of returning a Route:
`find_route` returns the two-element tuple `(path, total_weight)`, but
`plan_route` — like the repository's own test `test_find_route` —
unpacks three values `(node_path, total_weight, detailed_geometry)`.
The fallback is reached only when `find_route` returns `None`. -/
theorem plan_route_crashes_on_found_route (m : RoadNetworkManager)
    (directRoute : Location → Location → Route)
    (buildRoute : RoadNetworkManager.RouteResultItem →
      RoadNetworkManager.RouteResultItem →
      RoadNetworkManager.RouteResultItem → Route)
    (origin destination : Location)
    (result : List RoadNetworkManager.RouteResultItem)
    (h : m.find_route origin destination = some result) :
    plan_route m directRoute buildRoute origin destination
      = Except.error PyError.valueError := by
  obtain ⟨p, w, rfl⟩ := find_route_pair m origin destination result h
  unfold plan_route
  rw [h]
  rfl

/-- A two-node, one-edge network on which the internal search succeeds. -/
def mC2 : RoadNetworkManager :=
  { nodes := [(0, 0), (1, 0)]
    edges := [(((0, 0), (1, 0)),
      { length := 5, base_weight := 5, weight := W.fin 5 })]
    edge_status := [(((0, 0), (1, 0)), {})] }

def locO : Location := { lat := 0, lon := 0 }

def locD : Location := { lat := 0, lon := 1 }

/-- Witness for `plan_route_crashes_on_found_route`: on the concrete
network `mC2` the search finds the one-edge path, and `plan_route`
propagates the unpacking `ValueError`. -/
theorem plan_route_crashes_on_found_route_witness :
    plan_route mC2 (fun o d => { origin := o, destination := d })
      (fun _ _ _ => { origin := locO, destination := locD }) locO locD
      = Except.error PyError.valueError := by
  have h : mC2.find_route locO locD
      = some [RoadNetworkManager.RouteResultItem.path [(0, 0), (1, 0)],
              RoadNetworkManager.RouteResultItem.weight (W.fin 5)] := by
    norm_num [RoadNetworkManager.find_route, RoadNetworkManager.get_nearest_node,
      RoadNetworkManager.node_dist_sq, RoadNetworkManager.dijkstra,
      RoadNetworkManager.dijkstraLoop, RoadNetworkManager.pickMin,
      W.add, W.leb, mC2, locO, locD, List.filterMap_cons,
      Prod.ext_iff, Prod.fst_zero, Prod.snd_zero]
  exact plan_route_crashes_on_found_route mC2 _ _ locO locD _ h

end C2

/-! ### GeoJSON loading and segment lengths (road_network.py:50-99,
376-387).  `math.sqrt` is irrational on most inputs, so the length
computation is parametrized by the square-root function `sq`; every
theorem below evaluates `sq` only on perfect squares, where it is pinned
to the true square root. -/

/-- Model: `RoadNetworkManager._calculate_length` (road_network.py:376-387): sum
the planar norms of consecutive segments using the FIXED conversion
constants 90000 m/°lon and 111000 m/°lat (the code comment says
"approximate conversion at ~35° latitude"). -/
def calculate_length (sq : ℚ → ℚ) (coords : List (ℚ × ℚ)) : ℚ :=
  (coords.zip coords.tail).foldl
    (fun total pr =>
      total + sq (((pr.2.1 - pr.1.1) * 90000) ^ 2
        + ((pr.2.2 - pr.1.2) * 111000) ^ 2))
    0

/-- The per-segment metric exactly as the claim words it: 111320·cos(lat)
metres per degree of longitude and 111320 metres per degree of latitude.
The cosine is transcendental and is passed as `cosq`. -/
def spec_calculate_length (sq : ℚ → ℚ) (cosq : ℚ → ℚ)
    (coords : List (ℚ × ℚ)) : ℚ :=
  (coords.zip coords.tail).foldl
    (fun total pr =>
      total + sq (((pr.2.1 - pr.1.1) * (111320 * cosq pr.1.2)) ^ 2
        + ((pr.2.2 - pr.1.2) * 111320) ^ 2))
    0

/-- A GeoJSON feature as the loader reads it: geometry type, coordinate
list (each pair already truncated to `[:2]`), and the properties the
loader consumes. -/
structure Feature where
  geometry_type : String
  coordinates : List (ℚ × ℚ)
  length : Option ℚ := none
  name : Option String := none
  highway : Option String := none
deriving DecidableEq, Repr

namespace RoadNetworkManager

/-- Model: `networkx.DiGraph.add_node`: the node set gains the node if new
(attribute updates do not concern any claim). -/
def add_node (m : RoadNetworkManager) (n : Node) : RoadNetworkManager :=
  if m.nodes.contains n then m else { m with nodes := m.nodes ++ [n] }

/-- Model: `networkx.DiGraph.add_edge`: replace the edge data if the edge
exists, else append it. -/
def add_edge (m : RoadNetworkManager) (k : Node × Node) (d : EdgeData) :
    RoadNetworkManager :=
  if m.edges.any (fun p => p.1 = k) then
    { m with edges := m.edges.map (fun p => if p.1 = k then (k, d) else p) }
  else
    { m with edges := m.edges ++ [(k, d)] }

/-- Loading one feature (road_network.py:67-97): LineString features
become a single directed edge from the first to the last coordinate, with
`length` taken from the properties when present and otherwise computed by
`_calculate_length`; `base_weight` and the dynamic `weight` start at that
length, and a fresh status entry is installed.  Other geometry types are
skipped.  (A LineString with an empty coordinate list would raise an
`IndexError` at `coords[0]`; such features are outside the data model and
the model skips them.) -/
def load_feature (sq : ℚ → ℚ) (m : RoadNetworkManager) (f : Feature) :
    RoadNetworkManager :=
  if f.geometry_type = "LineString" then
    match f.coordinates with
    | [] => m
    | c0 :: rest =>
      let start := c0
      let stop := (c0 :: rest).getLast (List.cons_ne_nil c0 rest)
      let length := f.length.getD (calculate_length sq f.coordinates)
      let m := (m.add_node start).add_node stop
      let m := m.add_edge (start, stop)
        { name := f.name, highway := f.highway, length := length
          geometry := f.coordinates, base_weight := length
          weight := W.fin length }
      m.setStatus (start, stop) {}
  else m

/-- Model: `RoadNetworkManager.load_from_geojson` (road_network.py:50-99) over
an already-parsed feature list. -/
def load_from_geojson (sq : ℚ → ℚ) (m : RoadNetworkManager)
    (features : List Feature) : RoadNetworkManager :=
  features.foldl (load_feature sq) m

theorem lookupEdge_add_edge_self (m : RoadNetworkManager) (k : Node × Node)
    (d : EdgeData) : (m.add_edge k d).lookupEdge k = some d := by
  unfold add_edge lookupEdge
  cases hany : m.edges.any (fun p => decide (p.1 = k)) with
  | true =>
    simp only [hany, if_true, find?_replaceAll_self _ _ _ hany, Option.map_some']
  | false =>
    have hall : ∀ p ∈ m.edges, ¬ p.1 = k := by
      intro p hp
      simpa using List.any_eq_false.mp hany p hp
    simp only [hany, Bool.false_eq_true, if_false,
      find?_append_self_of_not_any _ _ _ hall, Option.map_some']

theorem lookupEdge_add_node (m : RoadNetworkManager) (n : Node)
    (k : Node × Node) : (m.add_node n).lookupEdge k = m.lookupEdge k := by
  unfold add_node
  split <;> rfl

end RoadNetworkManager

section C10

open RoadNetworkManager

/-- Auxiliary form of the C10 loading property, shared by the claim's
theorem and its counterexample. -/
theorem load_feature_length_aux (sq : ℚ → ℚ) (m : RoadNetworkManager)
    (f : Feature) (hgeom : f.geometry_type = "LineString")
    (c0 : ℚ × ℚ) (rest : List (ℚ × ℚ)) (hc : f.coordinates = c0 :: rest)
    (hlen : f.length = none) :
    (load_feature sq m f).lookupEdge
        (c0, (c0 :: rest).getLast (List.cons_ne_nil c0 rest))
      = some { name := f.name, highway := f.highway
               length := calculate_length sq f.coordinates
               geometry := f.coordinates
               base_weight := calculate_length sq f.coordinates
               weight := W.fin (calculate_length sq f.coordinates) } := by
  unfold load_feature
  rw [if_pos hgeom]
  split
  · rename_i heq
    rw [hc] at heq
    cases heq
  · rename_i c0' rest' heq
    rw [hc] at heq
    obtain ⟨rfl, rfl⟩ : c0 = c0' ∧ rest = rest' := by
      cases heq
      exact ⟨rfl, rfl⟩
    rw [lookupEdge_setStatus, lookupEdge_add_edge_self, hlen]
    rfl

/-- C10 (amended): a LineString feature without a length property is
loaded as an edge whose `length`, `base_weight` and dynamic `weight` all
equal `_calculate_length` of its coordinates — the planar segment sum
with the fixed constants 90000 m/°lon and 111000 m/°lat, not the
latitude-dependent 111320 × cos(lat) metric of the specification. -/
theorem load_feature_length_m (sq : ℚ → ℚ) (m : RoadNetworkManager)
    (f : Feature) (hgeom : f.geometry_type = "LineString")
    (c0 : ℚ × ℚ) (rest : List (ℚ × ℚ)) (hc : f.coordinates = c0 :: rest)
    (hlen : f.length = none) :
    (load_feature sq m f).lookupEdge
        (c0, (c0 :: rest).getLast (List.cons_ne_nil c0 rest))
      = some { name := f.name, highway := f.highway
               length := calculate_length sq f.coordinates
               geometry := f.coordinates
               base_weight := calculate_length sq f.coordinates
               weight := W.fin (calculate_length sq f.coordinates) } :=
  load_feature_length_aux sq m f hgeom c0 rest hc hlen

/-- The square-root oracle of the C10 counterexample, exact on the two
perfect squares the computation reaches. -/
def sqC10 : ℚ → ℚ := fun q =>
  if q = 111000 ^ 2 then 111000 else if q = 111320 ^ 2 then 111320 else 0

/-- The C10 counterexample feature: a due-north unit segment (Δlon = 0,
Δlat = 1) with no length property. -/
def fC10 : Feature :=
  { geometry_type := "LineString", coordinates := [(0, 0), (0, 1)] }

/-- C10 counterexample: loading `fC10` stores `length_m = 111000` (the
code's fixed 111000 m/°lat constant), while the claimed formula gives
`111320` on the same segment — independently of the cosine, since the
segment has Δlon = 0 (the cosine argument is instantiated at the equator
value 1).  The last two conjuncts confirm the square-root oracle is exact
on the two perfect squares involved. -/
theorem calculate_length_claim_false :
    ((load_from_geojson sqC10 {} [fC10]).lookupEdge ((0, 0), (0, 1))).map
        EdgeData.length = some 111000
    ∧ spec_calculate_length sqC10 (fun _ => 1) [(0, 0), (0, 1)] = 111320
    ∧ ((111000 : ℚ) ≠ 111320)
    ∧ sqC10 (111000 ^ 2) = 111000 ∧ sqC10 (111320 ^ 2) = 111320 := by
  have h := load_feature_length_aux sqC10 {} fC10 rfl (0, 0) [(0, 1)] rfl rfl
  refine ⟨?_, ?_, by norm_num, by norm_num [sqC10], by norm_num [sqC10]⟩
  · have h' := congrArg (Option.map EdgeData.length) h
    refine Eq.trans h' ?_
    norm_num [calculate_length, fC10, sqC10]
  · norm_num [spec_calculate_length, sqC10]

/-- Witness for `load_feature_length_m` on the concrete feature. -/
theorem load_feature_length_m_witness :
    (load_feature sqC10 {} fC10).lookupEdge
        ((0, 0), ([((0 : ℚ), (0 : ℚ)), (0, 1)]).getLast (List.cons_ne_nil _ _))
      = some { name := fC10.name, highway := fC10.highway
               length := calculate_length sqC10 fC10.coordinates
               geometry := fC10.coordinates
               base_weight := calculate_length sqC10 fC10.coordinates
               weight := W.fin (calculate_length sqC10 fC10.coordinates) } :=
  load_feature_length_m sqC10 {} fC10 rfl (0, 0) [(0, 1)] rfl rfl

end C10

/-! ### Conflict identification and the query pipeline
(report_aggregator.py:99-154, orchestrator.py:166-212, 776-812) -/

/-- The contradiction table of `identify_conflicting_reports`
(report_aggregator.py:120-125); kinds absent from the dict map to the
empty list, which makes the `etype in contradictions` test false. -/
def contradictions : EventType → List EventType
  | EventType.road_closure => [EventType.road_clear]
  | EventType.road_clear => [EventType.road_closure, EventType.road_damage]
  | EventType.road_damage => [EventType.road_clear]
  | EventType.flooding => [EventType.road_clear]
  | _ => []

/-- The conflict test (report_aggregator.py:131-139): some event kind in
the cluster contradicts another kind present in the cluster. -/
def has_conflict (cluster : List AgentReport) : Bool :=
  (cluster.map (·.event_type)).any (fun e =>
    (contradictions e).any (fun e' => (cluster.map (·.event_type)).contains e'))

/-- One detected conflict (the `types` set of the source dict is
recoverable from the reports and omitted). -/
structure Conflict where
  road_id : String
  reports : List AgentReport
deriving DecidableEq, Repr

/-- Model: `identify_conflicting_reports` (report_aggregator.py:99-154).  The
`road_id` falls back to a coordinate string when the representative
report has no address; the numeric formatting of that string is
abstracted (no claim reads it). -/
def identify_conflicting_reports (dist : Location → Location → ℚ)
    (reports : List AgentReport) (proximity_km : ℚ) : List Conflict :=
  (group_reports_by_location dist reports proximity_km).filterMap
    (fun cluster =>
      if has_conflict cluster then
        some { road_id :=
                 match cluster with
                 | [] => ""
                 | rep :: _ => rep.location.address.getD ""
               reports := cluster }
      else none)

/-- The parsed-query dict produced by `_parse_query` (LLM or keyword
fallback); the pipeline claims quantify over its outcome, so it is an
input of the pipeline model. -/
structure ParsedQuery where
  intent : String := "route_supplies"
  supplies : List (String × Int) := []
  origin : Option Location := none
  raw_query : String := ""
  urgency : String := "medium"
  parsed_by : String := "keyword"
deriving DecidableEq, Repr

structure SituationalAwareness where
  total_reports : Nat
  blocked_roads : Nat
  damaged_roads : Nat
  reports_by_source : List (String × Nat)
deriving DecidableEq, Repr

structure DeliveryPlan where
  origin : Option Location
  supplies : List (String × Int)
  urgency : String
  routes : List Route
deriving DecidableEq, Repr

/-- The response dict of `_generate_response` (orchestrator.py:776-812);
the prose `reasoning` block (LLM collaborator with a markdown-template
fallback) carries no information any claim consumes and is omitted. -/
structure QueryResponse where
  query : String
  parsed_by : String
  scenario_time : Time
  situational_awareness : SituationalAwareness
  delivery_plan : DeliveryPlan
  conflicts_resolved : List Resolution
  error : Option String := none
deriving DecidableEq, Repr

/-- Model: `Orchestrator._generate_response` (orchestrator.py:776-812). -/
def generate_response (parsed : ParsedQuery) (routes : List Route)
    (intelligence : List (String × List AgentReport))
    (resolved_conflicts : List Resolution) (m : RoadNetworkManager)
    (scenario_time : Time) : QueryResponse :=
  { query := parsed.raw_query
    parsed_by := parsed.parsed_by
    scenario_time := scenario_time
    situational_awareness :=
      { total_reports := (intelligence.map (·.2.length)).sum
        blocked_roads := m.get_blocked_edges.length
        damaged_roads := m.get_damaged_edges.length
        reports_by_source := intelligence.map (fun pr => (pr.1, pr.2.length)) }
    delivery_plan :=
      { origin := parsed.origin
        supplies := parsed.supplies
        urgency := parsed.urgency
        routes := routes }
    conflicts_resolved := resolved_conflicts }

/-- The error message set on a null origin (orchestrator.py:200). -/
def NO_ORIGIN_ERROR : String :=
  "Could not determine your starting location. Please include a place name, address, or landmark in your message."

open Orchestrator RoadNetworkManager in
/-- Model: `Orchestrator.process_query` (orchestrator.py:166-212), on the
deterministic (no-LLM-client) path, from the parse result and the
gathered intelligence: apply the intelligence to the road network (no
reset), identify and resolve conflicts, then either short-circuit with an
error response when the parse yielded no origin, or rank shelters and
plan routes.  Returns the response and the mutated road network. -/
def process_query (dist : Location → Location → ℚ)
    (planRoute : Location → Location → Option Route)
    (parsed : ParsedQuery) (intelligence : List (String × List AgentReport))
    (m : RoadNetworkManager) (shelters_data : List Shelter)
    (scenario_time now : Time) : QueryResponse × RoadNetworkManager :=
  let m₁ := (apply_intelligence_to_network m intelligence now).1
  let all_reports := (intelligence.map (·.2)).flatten
  let conflicts := identify_conflicting_reports dist all_reports (1/2)
  let resolved_conflicts := conflicts.map
    (fun c => resolve_conflicts_fallback c.reports c.road_id)
  match parsed.origin with
  | none =>
    ({ generate_response parsed [] intelligence resolved_conflicts m₁ scenario_time
        with error := some NO_ORIGIN_ERROR }, m₁)
  | some _ =>
    let shelters := get_priority_shelters shelters_data
    let routes := plan_delivery_routes dist planRoute parsed.supplies
      parsed.origin shelters
    (generate_response parsed routes intelligence resolved_conflicts m₁
      scenario_time, m₁)

section C4

/-- C4: whenever the parse (LLM and fallback alike) produced no origin,
`process_query` returns a response whose `error` field is the
human-readable no-origin message, whose `delivery_plan.origin` is null
and whose `delivery_plan.routes` is empty: shelter ranking and routing
are skipped, and the response is exactly the error-decorated
`_generate_response` over an empty route list. -/
theorem process_query_no_origin (dist : Location → Location → ℚ)
    (planRoute : Location → Location → Option Route) (parsed : ParsedQuery)
    (intelligence : List (String × List AgentReport))
    (m : RoadNetworkManager) (shelters_data : List Shelter)
    (scenario_time now : Time) (h : parsed.origin = none) :
    (process_query dist planRoute parsed intelligence m shelters_data
        scenario_time now).1.error = some NO_ORIGIN_ERROR
    ∧ (process_query dist planRoute parsed intelligence m shelters_data
        scenario_time now).1.delivery_plan.origin = none
    ∧ (process_query dist planRoute parsed intelligence m shelters_data
        scenario_time now).1.delivery_plan.routes = [] := by
  unfold process_query
  rw [h]
  exact ⟨rfl, h, rfl⟩

/-- Witness for `process_query_no_origin` at a concrete origin-free
query. -/
theorem process_query_no_origin_witness :
    (process_query (fun _ _ => 0) (fun _ _ => none)
        { raw_query := "I have 100 water cases" } [("official", [])] {} []
        0 0).1.error = some NO_ORIGIN_ERROR
    ∧ (process_query (fun _ _ => 0) (fun _ _ => none)
        { raw_query := "I have 100 water cases" } [("official", [])] {} []
        0 0).1.delivery_plan.origin = none
    ∧ (process_query (fun _ _ => 0) (fun _ _ => none)
        { raw_query := "I have 100 water cases" } [("official", [])] {} []
        0 0).1.delivery_plan.routes = [] :=
  process_query_no_origin (fun _ _ => 0) (fun _ _ => none)
    { raw_query := "I have 100 water cases" } [("official", [])] {} [] 0 0 rfl

end C4

section C3

open Orchestrator RoadNetworkManager

/-- A one-edge network left closed by an earlier query's projection. -/
def mC3 : RoadNetworkManager :=
  { nodes := [(0, 0), (2, 0)]
    edges := [(((0, 0), (2, 0)),
      { length := 100, base_weight := 100, weight := W.inf })]
    edge_status := [(((0, 0), (2, 0)),
      { weight_multiplier := W.inf, status := RoadStatus.closed
        confidence := 9/10, last_update := some 1, reports := [] })] }

/-- C3 counterexample: a query that gathers no reports leaves the closed
edge closed (`weight = ∞`), whereas the claimed reset-then-project
pipeline would restore `weight = base_weight = 100` and a fresh status —
`process_query` never calls `reset_all_weights`, so edge state survives
across queries. -/
theorem process_query_reset_claim_false :
    (((process_query (fun _ _ => 0) (fun _ _ => none) {} [] mC3 [] 0 0).2.lookupEdge
        ((0, 0), (2, 0))).map EdgeData.weight = some W.inf)
    ∧ ((((apply_intelligence_to_network (reset_all_weights mC3) [] 0).1.lookupEdge
        ((0, 0), (2, 0))).map EdgeData.weight) = some (W.fin 100))
    ∧ W.inf ≠ W.fin 100 := by
  refine ⟨rfl, rfl, by simp⟩

/-- C3 (amended): `process_query` projects the gathered reports onto the
road network as it stands, with no reset: every edge outside the location
box of every gathered road-affecting report keeps exactly the weight and
status it had before the query — including state projected by earlier
queries. -/
theorem process_query_no_reset (dist : Location → Location → ℚ)
    (planRoute : Location → Location → Option Route) (parsed : ParsedQuery)
    (intelligence : List (String × List AgentReport))
    (m : RoadNetworkManager) (shelters_data : List Shelter)
    (scenario_time now : Time) (k : Node × Node)
    (hk : ∀ pr ∈ intelligence, ∀ r ∈ pr.2,
      EVENT_WEIGHT_IMPACT r.event_type = none
      ∨ near_edge k r.location (1/1000) = false) :
    ((process_query dist planRoute parsed intelligence m shelters_data
        scenario_time now).2.lookupEdge k = m.lookupEdge k)
    ∧ ((process_query dist planRoute parsed intelligence m shelters_data
        scenario_time now).2.lookupStatus k = m.lookupStatus k) := by
  have hframe := apply_intelligence_no_reset_frame m intelligence now k hk
  unfold process_query
  cases parsed.origin with
  | none => exact hframe
  | some o => exact hframe

/-- Witness for `process_query_no_reset`: a query whose only gathered
report is a shelter opening far from the closed edge leaves the closed
edge untouched. -/
theorem process_query_no_reset_witness :
    ((process_query (fun _ _ => 0) (fun _ _ => none) {}
        [("official", [{ id := "s", timestamp := 0
                         event_type := EventType.shelter_opening
                         location := { lat := 30, lon := 30 }
                         confidence := 1 }])] mC3 [] 0 0).2.lookupEdge
        ((0, 0), (2, 0)) = mC3.lookupEdge ((0, 0), (2, 0)))
    ∧ ((process_query (fun _ _ => 0) (fun _ _ => none) {}
        [("official", [{ id := "s", timestamp := 0
                         event_type := EventType.shelter_opening
                         location := { lat := 30, lon := 30 }
                         confidence := 1 }])] mC3 [] 0 0).2.lookupStatus
        ((0, 0), (2, 0)) = mC3.lookupStatus ((0, 0), (2, 0))) :=
  process_query_no_reset (fun _ _ => 0) (fun _ _ => none) {}
    [("official", [{ id := "s", timestamp := 0
                     event_type := EventType.shelter_opening
                     location := { lat := 30, lon := 30 }
                     confidence := 1 }])] mC3 [] 0 0 ((0, 0), (2, 0))
    (by
      intro pr hpr r hr
      simp only [List.mem_singleton] at hpr
      subst hpr
      simp only [List.mem_singleton] at hr
      subst hr
      exact Or.inl rfl)

end C3

end UGAhacks
